import Mathlib

/-
Verification development for the social-scraping orchestration layer:
a shallow embedding in Lean 4 of the orchestrator, fallback generator,
sentiment aggregator, virality scorer and credential rotation of the
repository, with theorems settling the specification claims.

Conventions of the embedding:
  * Python dict-shaped records become association lists
    `List (String × JVal)`; absent keys are looked up with defaults,
    mirroring `dict.get(key, default)`.
  * Python numbers (ints and floats appearing in exact decimal
    computations) become `Nat`/`Int`/`Rat`; `round(x, n)` becomes
    `pyRound n x` (round-half-to-even on rationals, Python's rounding
    for exact inputs).
  * Python's process-stable string `hash` is modelled as an explicit
    parameter `h : String → Nat` threaded through the functions that
    use it.
  * `asyncio` effects are modelled explicitly: exceptions raised below
    the orchestrator are values of `TryOutcome.raises`, supplied by an
    environment `OrchestratorEnv`; wall-clock completion times of task
    coroutines are given by `OrchestratorEnv.completesAt`, and
    `asyncio.wait_for(asyncio.gather ...)` times out exactly when not
    every task of the batch completes within the tier timeout.
-/

namespace V79

/-- Round-half-to-even of a rational to an integer (Python's `round`
on exact inputs). -/
def roundHalfEven (x : ℚ) : ℤ :=
  if x - (⌊x⌋ : ℚ) < 1/2 then ⌊x⌋
  else if 1/2 < x - (⌊x⌋ : ℚ) then ⌊x⌋ + 1
  else if ⌊x⌋ % 2 = 0 then ⌊x⌋ else ⌊x⌋ + 1

/-- Python's `round(x, ndigits)` on exact rational inputs. -/
def pyRound (ndigits : Nat) (x : ℚ) : ℚ :=
  (roundHalfEven (x * (10 ^ ndigits : ℕ)) : ℚ) / (10 ^ ndigits : ℕ)

/-- JSON-ish scalar/shallow values appearing in the repository's
record dictionaries. -/
inductive JVal where
  | s (v : String)
  | n (v : Nat)
  | q (v : ℚ)
  | arrS (v : List String)
  | objN (v : List (String × Nat))
deriving DecidableEq, Repr

/-- One record (post dict) as produced by the simulators/scrapers. -/
abbrev Rec := List (String × JVal)

/-- Dictionary lookup on a record. -/
def recGet (r : Rec) (k : String) : Option JVal :=
  (r.find? (fun p => p.1 == k)).map (fun p => p.2)

/-- `post.get(k, 0)` for an integer-valued key. -/
def recGetNat (r : Rec) (k : String) : Nat :=
  match recGet r k with
  | some (.n v) => v
  | _ => 0

/-- `post.get(k, d)` for a string-valued key. -/
def recGetStr (r : Rec) (k : String) (d : String) : String :=
  match recGet r k with
  | some (.s v) => v
  | _ => d

/-- The per-platform result dict shape shared by the simulators, the
scrapers' standard-format converters, and the orchestrator's fallback
and error results.  Optional fields model keys that are present only
in some of those dicts. -/
structure PlatformResult where
  success : Bool
  platform : String
  query : String
  results : List Rec
  total_found : Nat
  data_source : Option String := none
  error : Option String := none
  message : Option String := none
  retry_count : Option Nat := none
deriving DecidableEq, Repr

/-- Sentiment cycle used by the facebook and twitter simulators. -/
def sentimentsCycle : List String := ["positive", "negative", "neutral"]

/-- `SocialMediaExtractor._simulate_facebook_data` (social_media_extractor.py).
`h` models Python's process-stable string `hash`. -/
def simulate_facebook_data (h : String → Nat) (query : String) (max_results : Nat) :
    PlatformResult :=
  let results : List Rec :=
    (List.range (min max_results 8)).map (fun i =>
      [ ("title", .s ("Post sobre " ++ query ++ " - Discussão interessante " ++ toString (i+1))),
        ("text", .s ("Compartilhando insights sobre " ++ query ++
          ". O mercado está em constante evolução e precisamos acompanhar as tendências. #" ++
          query ++ " #negócios #inovação")),
        ("author", .s ("Especialista " ++ toString (i+1))),
        ("published_at", .s "2024-08-01T00:00:00Z"),
        ("like_count", .n ((i+1) * 45)),
        ("comment_count", .n ((i+1) * 12)),
        ("share_count", .n ((i+1) * 8)),
        ("url", .s ("https://www.facebook.com/share/p/" ++
          toString (h (query ++ toString i) % 1000000000) ++ "/")),
        ("platform", .s "facebook"),
        ("engagement_rate", .q (pyRound 2 ((((i+1) * 65 : ℕ) : ℚ) / (((i+1) * 2000 : ℕ) : ℚ) * 100))),
        ("sentiment", .s (sentimentsCycle.getD (i % 3) "")),
        ("relevance_score", .q (pyRound 2 ((7/10 : ℚ) + (i : ℚ) * (3/100)))),
        ("reactions", .objN
          [ ("like", (i+1) * 30), ("love", (i+1) * 10), ("wow", (i+1) * 3),
            ("haha", (i+1) * 2), ("sad", 0), ("angry", 0) ]) ])
  { success := true
    platform := "facebook"
    results := results
    total_found := results.length
    query := query
    data_source := some "simulated" }

/-- `SocialMediaExtractor._simulate_youtube_data`. -/
def simulate_youtube_data (query : String) (max_results : Nat) : PlatformResult :=
  let results : List Rec :=
    (List.range (min max_results 8)).map (fun i =>
      [ ("title", .s ("Vídeo sobre " ++ query ++ " - Tutorial Completo " ++ toString (i+1))),
        ("description", .s ("Aprenda tudo sobre " ++ query ++ " neste vídeo completo e prático")),
        ("channel", .s ("Canal Expert " ++ toString (i+1))),
        ("published_at", .s "2024-08-01T00:00:00Z"),
        ("view_count", .s (toString ((i+1) * 1500))),
        ("like_count", .n ((i+1) * 120)),
        ("comment_count", .n ((i+1) * 45)),
        ("url", .s ("https://youtube.com/watch?v=example" ++ toString (i+1))),
        ("platform", .s "youtube"),
        ("engagement_rate", .q (pyRound 2 ((((i+1) * 120 : ℕ) : ℚ) / (((i+1) * 1500 : ℕ) : ℚ) * 100))),
        ("sentiment", .s (if i % 3 = 0 then "positive" else "neutral")),
        ("relevance_score", .q (pyRound 2 ((8/10 : ℚ) + (i : ℚ) * (2/100)))) ])
  { success := true
    platform := "youtube"
    results := results
    total_found := results.length
    query := query }

/-- `SocialMediaExtractor._simulate_twitter_data`. -/
def simulate_twitter_data (query : String) (max_results : Nat) : PlatformResult :=
  let results : List Rec :=
    (List.range (min max_results 12)).map (fun i =>
      [ ("text", .s ("Interessante discussão sobre " ++ query ++
          "! Vejo muito potencial no mercado brasileiro. #" ++ query ++
          " #negócios #empreendedorismo")),
        ("author", .s ("@especialista" ++ toString (i+1))),
        ("created_at", .s "2024-08-01T00:00:00Z"),
        ("retweet_count", .n ((i+1) * 15)),
        ("like_count", .n ((i+1) * 35)),
        ("reply_count", .n ((i+1) * 8)),
        ("quote_count", .n ((i+1) * 5)),
        ("url", .s ("https://twitter.com/i/status/example" ++ toString (i+1))),
        ("platform", .s "twitter"),
        ("sentiment", .s (sentimentsCycle.getD (i % 3) "")),
        ("influence_score", .q (pyRound 2 ((6/10 : ℚ) + (i : ℚ) * (3/100)))),
        ("hashtags", .arrS ["#" ++ query, "#negócios", "#brasil"]) ])
  { success := true
    platform := "twitter"
    results := results
    total_found := results.length
    query := query }

/-- `SocialMediaExtractor._simulate_instagram_data`. -/
def simulate_instagram_data (query : String) (max_results : Nat) : PlatformResult :=
  let results : List Rec :=
    (List.range (min max_results 10)).map (fun i =>
      [ ("caption", .s ("Transformando o mercado de " ++ query ++
          "! 🚀 Veja como esta inovação está mudando tudo! #" ++ query ++
          " #inovação #brasil")),
        ("media_type", .s "IMAGE"),
        ("like_count", .n ((i+1) * 250)),
        ("comment_count", .n ((i+1) * 18)),
        ("timestamp", .s "2024-08-01T00:00:00Z"),
        ("url", .s ("https://instagram.com/p/example" ++ toString (i+1))),
        ("username", .s ("influencer" ++ toString (i+1))),
        ("platform", .s "instagram"),
        ("engagement_rate", .q (pyRound 2 ((((i+1) * 268 : ℕ) : ℚ) / (((i+1) * 5000 : ℕ) : ℚ) * 100))),
        ("hashtags", .arrS ["#" ++ query, "#inovação", "#brasil", "#negócios"]),
        ("follower_count", .n ((i+1) * 5000)) ])
  { success := true
    platform := "instagram"
    results := results
    total_found := results.length
    query := query }

/-- Per-platform summary entry of `analyze_sentiment_trends`
(`platform_breakdown` values). -/
structure PlatformSentiment where
  positive_percentage : ℚ
  negative_percentage : ℚ
  neutral_percentage : ℚ
  total_posts : Nat
  dominant_sentiment : String
deriving DecidableEq, Repr

/-- Return shape of `analyze_sentiment_trends`. -/
structure SentimentAnalysis where
  overall_sentiment : String
  overall_positive_percentage : ℚ
  overall_negative_percentage : ℚ
  overall_neutral_percentage : ℚ
  total_posts_analyzed : Nat
  platform_breakdown : List (String × PlatformSentiment)
  confidence_score : ℚ
deriving DecidableEq, Repr

/-- `post.get('sentiment', 'neutral')`. -/
def sentimentOf (r : Rec) : String := recGetStr r "sentiment" "neutral"

/-- Platform names whose records `analyze_sentiment_trends` counts
(the literal list in its loop). -/
def sentimentPlatforms : List String := ["youtube", "twitter", "instagram", "linkedin"]

/-- Number of records of `rs` classified positive by the inner loop of
`analyze_sentiment_trends`. -/
def countPositive (rs : List Rec) : Nat := (rs.filter (fun r => sentimentOf r = "positive")).length

/-- Number of records of `rs` classified negative by the inner loop. -/
def countNegative (rs : List Rec) : Nat := (rs.filter (fun r => sentimentOf r = "negative")).length

/-- Number of records falling to the inner loop's `else` branch
(everything neither positive nor negative). -/
def countNeutral (rs : List Rec) : Nat :=
  (rs.filter (fun r => sentimentOf r ≠ "positive" ∧ sentimentOf r ≠ "negative")).length

/-- The `platform_sentiments[platform_name] = {...}` dict built for a
platform with a nonempty result list. -/
def platformSentimentEntry (rs : List Rec) : PlatformSentiment :=
  { positive_percentage := pyRound 1 (((countPositive rs : ℚ) / (rs.length : ℚ)) * 100)
    negative_percentage := pyRound 1 (((countNegative rs : ℚ) / (rs.length : ℚ)) * 100)
    neutral_percentage := pyRound 1 (((countNeutral rs : ℚ) / (rs.length : ℚ)) * 100)
    total_posts := rs.length
    dominant_sentiment :=
      if countPositive rs > countNegative rs ∧ countPositive rs > countNeutral rs then "positive"
      else if countNegative rs > countPositive rs then "negative"
      else "neutral" }

/-- Accumulator of the outer loop of `analyze_sentiment_trends`:
total positive, negative, neutral, posts, and the breakdown built so far. -/
structure SentimentAcc where
  total_positive : Nat
  total_negative : Nat
  total_neutral : Nat
  total_posts : Nat
  platform_sentiments : List (String × PlatformSentiment)

/-- One step of the outer loop of `analyze_sentiment_trends` over a
`(platform_name, platform_data)` item. -/
def sentimentStep (acc : SentimentAcc) (item : String × PlatformResult) : SentimentAcc :=
  if item.1 ∈ sentimentPlatforms then
    let rs := item.2.results
    { total_positive := acc.total_positive + countPositive rs
      total_negative := acc.total_negative + countNegative rs
      total_neutral := acc.total_neutral + countNeutral rs
      total_posts := acc.total_posts + rs.length
      platform_sentiments :=
        if rs.length > 0 then acc.platform_sentiments ++ [(item.1, platformSentimentEntry rs)]
        else acc.platform_sentiments }
  else acc

/-- `SocialMediaExtractor.analyze_sentiment_trends`
(social_media_extractor.py).  The input is the platform-results dict
in insertion order; `analysis_timestamp` (a wall-clock string) is not
modelled. -/
def analyze_sentiment_trends (platforms_data : List (String × PlatformResult)) :
    SentimentAnalysis :=
  let acc := platforms_data.foldl sentimentStep
    { total_positive := 0, total_negative := 0, total_neutral := 0,
      total_posts := 0, platform_sentiments := [] }
  let overall_sentiment :=
    if acc.total_positive > acc.total_negative ∧ acc.total_positive > acc.total_neutral then
      "positive"
    else if acc.total_negative > acc.total_positive ∧ acc.total_negative > acc.total_neutral then
      "negative"
    else "neutral"
  { overall_sentiment := overall_sentiment
    overall_positive_percentage :=
      if acc.total_posts > 0 then
        pyRound 1 (((acc.total_positive : ℚ) / (acc.total_posts : ℚ)) * 100) else 0
    overall_negative_percentage :=
      if acc.total_posts > 0 then
        pyRound 1 (((acc.total_negative : ℚ) / (acc.total_posts : ℚ)) * 100) else 0
    overall_neutral_percentage :=
      if acc.total_posts > 0 then
        pyRound 1 (((acc.total_neutral : ℚ) / (acc.total_posts : ℚ)) * 100) else 0
    total_posts_analyzed := acc.total_posts
    platform_breakdown := acc.platform_sentiments
    confidence_score :=
      if acc.total_posts > 0 then
        pyRound 1 ((|(acc.total_positive : ℚ) - (acc.total_negative : ℚ)|
          / (acc.total_posts : ℚ)) * 100)
      else 0 }

/-- `ScrapingTask` dataclass (social_scraping_orchestrator.py);
`created_at` (wall-clock) is not modelled. -/
structure ScrapingTask where
  platform : String
  query : String
  max_results : Nat
  priority : Nat := 1
  timeout_minutes : Nat := 10
  retry_count : Nat := 0
  max_retries : Nat := 2
deriving DecidableEq, Repr

/-- Outcome of awaiting one `try`-block body: either an exception is
raised or a result dict is produced. -/
inductive TryOutcome where
  | raises (msg : String)
  | value (r : PlatformResult)
deriving DecidableEq, Repr

/-- The environment of one orchestration call: the behavior of
everything below the orchestrator.  `realScraping p k` is the outcome
of `_execute_real_scraping` for platform `p` on the attempt whose
`retry_count` is `k` (each recursive re-attempt has a distinct
`retry_count`, so this keys attempts uniquely); `completesAt p` is the
wall-clock instant at which platform `p`'s task coroutine resolves
(`none` = never); `componentsAvailable` is `COMPONENTS_AVAILABLE`;
`pyhash` is Python's process-stable string hash. -/
structure OrchestratorEnv where
  pyhash : String → Nat
  componentsAvailable : Bool
  realScraping : String → Nat → TryOutcome
  completesAt : String → Option Nat

/-- `SocialScrapingOrchestrator._create_fallback_result`. -/
def create_fallback_result (task : ScrapingTask) : PlatformResult :=
  { success := true
    platform := task.platform
    query := task.query
    results := []
    total_found := 0
    data_source := some "fallback_empty"
    message := some ("Fallback ativado para " ++ task.platform ++ " devido a timeout ou erro") }

/-- `SocialScrapingOrchestrator._create_error_result`. -/
def create_error_result (task : ScrapingTask) (error : String) : PlatformResult :=
  { success := false
    platform := task.platform
    query := task.query
    error := some error
    results := []
    total_found := 0
    retry_count := some task.retry_count }

/-- `SocialScrapingOrchestrator._execute_fallback_scraping`: dispatch
to the simulators of the Fallback Generator. -/
def execute_fallback_scraping (h : String → Nat) (task : ScrapingTask) : PlatformResult :=
  if task.platform = "facebook" then simulate_facebook_data h task.query task.max_results
  else if task.platform = "instagram" then simulate_instagram_data task.query task.max_results
  else if task.platform = "youtube" then simulate_youtube_data task.query task.max_results
  else if task.platform = "twitter" then simulate_twitter_data task.query task.max_results
  else create_error_result task ("Plataforma " ++ task.platform ++ " não suportada")

/-- The `try`-block body of `_execute_single_task_with_fallback`:
attempt real scraping for facebook/instagram when components are
available (falling through to the Fallback Generator when it reports
no success), otherwise go straight to the Fallback Generator.  An
exception from real scraping propagates to the handler. -/
def tryBlock (env : OrchestratorEnv) (task : ScrapingTask) : TryOutcome :=
  if task.platform ∈ ["facebook", "instagram"] ∧ env.componentsAvailable then
    match env.realScraping task.platform task.retry_count with
    | .raises m => .raises m
    | .value r =>
      if r.success then .value r
      else .value (execute_fallback_scraping env.pyhash task)
  else .value (execute_fallback_scraping env.pyhash task)

/-- Which bookkeeping map the task lands in (`completed_tasks` or
`failed_tasks`). -/
inductive TaskRecord where
  | completed
  | failed
deriving DecidableEq, Repr

/-- Observable outcome of `_execute_single_task_with_fallback`: the
returned result dict, the number of attempts made (calls of the
function), the `asyncio.sleep` backoffs awaited between attempts, and
the bookkeeping bucket. -/
structure TaskExec where
  result : PlatformResult
  attempts : Nat
  backoffs : List Nat
  record : TaskRecord
deriving DecidableEq, Repr

/-- `SocialScrapingOrchestrator._execute_single_task_with_fallback`:
on an exception, retry recursively while `retry_count < max_retries`
(incrementing `retry_count` and sleeping 2 seconds), otherwise record
the task as failed and return an error result. -/
def execute_single_task_with_fallback (env : OrchestratorEnv) (task : ScrapingTask) :
    TaskExec :=
  match tryBlock env task with
  | .value r => { result := r, attempts := 1, backoffs := [], record := .completed }
  | .raises m =>
    if _h : task.retry_count < task.max_retries then
      let sub := execute_single_task_with_fallback env
        { task with retry_count := task.retry_count + 1 }
      { sub with attempts := sub.attempts + 1, backoffs := 2 :: sub.backoffs }
    else
      { result := create_error_result task m, attempts := 1, backoffs := [], record := .failed }
termination_by task.max_retries - task.retry_count
decreasing_by simp; omega

/-- Whether every task of the batch resolves within the tier timeout:
`asyncio.wait_for(asyncio.gather(*tasks), timeout)` succeeds exactly
when the last task completes no later than `timeout`. -/
def batchCompletes (env : OrchestratorEnv) (tasks : List ScrapingTask) (timeout : Nat) : Bool :=
  tasks.all (fun t =>
    match env.completesAt t.platform with
    | some c => c ≤ timeout
    | none => false)

/-- `SocialScrapingOrchestrator._execute_priority_batch`: the tier
timeout is 600 for priority 1, else 300; when the batch completes in
time each task contributes its own result, and on a tier timeout the
`except asyncio.TimeoutError` branch assigns `_create_fallback_result`
to every task of the batch.  (Callers only invoke this on nonempty
batches; the `[]` case is unreachable.) -/
def execute_priority_batch (env : OrchestratorEnv) (tasks : List ScrapingTask) :
    List (String × PlatformResult) :=
  match tasks with
  | [] => []
  | t0 :: _ =>
    let timeout := if t0.priority = 1 then 600 else 300
    if batchCompletes env tasks timeout then
      tasks.map (fun t => (t.platform, (execute_single_task_with_fallback env t).result))
    else
      tasks.map (fun t => (t.platform, create_fallback_result t))

/-- Python-dict assignment `m[k] = v` on an insertion-ordered
association list. -/
def dinsert (m : List (String × PlatformResult)) (k : String) (v : PlatformResult) :
    List (String × PlatformResult) :=
  if m.any (fun p => p.1 == k) then m.map (fun p => if p.1 == k then (k, v) else p)
  else m ++ [(k, v)]

/-- Python's `dict.update`. -/
def dictUpdate (m new : List (String × PlatformResult)) : List (String × PlatformResult) :=
  new.foldl (fun acc p => dinsert acc p.1 p.2) m

/-- `SocialScrapingOrchestrator._execute_tasks_with_fallbacks`:
partition by priority, run the priority-1 batch, then priority 2, then
priority 3, merging each batch's results into one dict. -/
def execute_tasks_with_fallbacks (env : OrchestratorEnv) (tasks : List ScrapingTask) :
    List (String × PlatformResult) :=
  let high_priority := tasks.filter (fun t => t.priority = 1)
  let medium_priority := tasks.filter (fun t => t.priority = 2)
  let low_priority := tasks.filter (fun t => t.priority = 3)
  let results : List (String × PlatformResult) := []
  let results := if ¬ high_priority.isEmpty then
    dictUpdate results (execute_priority_batch env high_priority) else results
  let results := if ¬ medium_priority.isEmpty then
    dictUpdate results (execute_priority_batch env medium_priority) else results
  let results := if ¬ low_priority.isEmpty then
    dictUpdate results (execute_priority_batch env low_priority) else results
  results

/-- The final report dict of `_compile_final_result` (wall-clock
`extracted_at` and the session-stats snapshot are not modelled). -/
structure Report where
  success : Bool
  query : String
  session_id : String
  all_platforms_data : List (String × PlatformResult)
  sentiment_analysis : SentimentAnalysis
  total_posts : Nat
  platforms_analyzed : Nat
  successful_platforms : List String
  failed_platforms : List String
  data_source : String
deriving Repr

/-- The counting loop of `_compile_final_result`: accumulates
`total_posts`, `successful_platforms`, `failed_platforms` over the
platform-results dict in order. -/
def compileCounts (platform_results : List (String × PlatformResult)) :
    Nat × List String × List String :=
  platform_results.foldl
    (fun acc pr =>
      if pr.2.success then (acc.1 + pr.2.results.length, acc.2.1 ++ [pr.1], acc.2.2)
      else (acc.1, acc.2.1, acc.2.2 ++ [pr.1]))
    (0, [], [])

/-- `SocialScrapingOrchestrator._compile_final_result`. -/
def compile_final_result (query : String)
    (platform_results : List (String × PlatformResult)) (session_id : String) : Report :=
  let counts := compileCounts platform_results
  { success := counts.1 > 0
    query := query
    session_id := session_id
    all_platforms_data := platform_results
    sentiment_analysis := analyze_sentiment_trends platform_results
    total_posts := counts.1
    platforms_analyzed := platform_results.length
    successful_platforms := counts.2.1
    failed_platforms := counts.2.2
    data_source := "orchestrated_scraping" }

/-- The task built by `execute_comprehensive_scraping` for one
requested platform: priority 1 for facebook/instagram, else 2 (all
other `ScrapingTask` fields keep their dataclass defaults). -/
def mkTask (query : String) (max_results_per_platform : Nat) (platform : String) :
    ScrapingTask :=
  { platform := platform
    query := query
    max_results := max_results_per_platform
    priority := if platform ∈ ["facebook", "instagram"] then 1 else 2 }

/-- `SocialScrapingOrchestrator.execute_comprehensive_scraping`: build
one task per requested platform, execute all tasks with fallbacks, and
compile the final report. -/
def execute_comprehensive_scraping (env : OrchestratorEnv) (query : String)
    (platforms : List String) (max_results_per_platform : Nat) (session_id : String) :
    Report :=
  let tasks := platforms.map (mkTask query max_results_per_platform)
  let results := execute_tasks_with_fallbacks env tasks
  compile_final_result query results session_id

/-- Mutable state of `ApifyInstagramScraper` / `ApifyFacebookScraper`
(src/scrapers): the configured key list and the round-robin cursor
(`current_key_index` starts at 0 in `__init__`). -/
structure ApifyScraperState where
  api_keys : List String
  current_key_index : Nat
deriving DecidableEq, Repr

/-- `_get_next_api_key` (identical in both scrapers): return the key
at the cursor and advance the cursor modulo the pool size.  It reads
only `api_keys` and `current_key_index`; no health signal is
consulted. -/
def get_next_api_key (s : ApifyScraperState) : Option String × ApifyScraperState :=
  if s.api_keys.isEmpty then (none, s)
  else
    (some (s.api_keys.getD s.current_key_index ""),
     { s with current_key_index := (s.current_key_index + 1) % s.api_keys.length })

/-- The scraper state fresh out of `__init__` with pool `keys`. -/
def initScraperState (keys : List String) : ApifyScraperState :=
  { api_keys := keys, current_key_index := 0 }

/-- State after `k` successive `_get_next_api_key` calls. -/
def stateAfterCalls (s0 : ApifyScraperState) : Nat → ApifyScraperState
  | 0 => s0
  | k + 1 => (get_next_api_key (stateAfterCalls s0 k)).2

/-- The key returned by the `k`-th call (1-based) of
`_get_next_api_key` on a fresh scraper with pool `keys`. -/
def nthNextApiKey (keys : List String) (k : Nat) : Option String :=
  (get_next_api_key (stateAfterCalls (initScraperState keys) (k - 1))).1

/-- The `engagement_metrics` dict consumed by
`ApifyViralExtractor.calculate_virality_score` (Python `int` values). -/
structure EngagementMetrics where
  likes : ℤ
  comments : ℤ
  shares : ℤ
  views : ℤ
deriving DecidableEq, Repr

/-- The platform-weighted `base_score` of
`ApifyViralExtractor.calculate_virality_score`. -/
def base_score (m : EngagementMetrics) (platform : String) : ℚ :=
  if platform.toLower = "instagram" then
    (m.likes : ℚ) * 1 + (m.comments : ℚ) * 2 + (m.shares : ℚ) * 3 + (m.views : ℚ) * (1/10)
  else if platform.toLower = "facebook" then
    (m.likes : ℚ) * (8/10) + (m.comments : ℚ) * (3/2) + (m.shares : ℚ) * 4 + (m.views : ℚ) * (1/20)
  else
    (m.likes : ℚ) * 1 + (m.comments : ℚ) * (3/2) + (m.shares : ℚ) * 2 + (m.views : ℚ) * (1/10)

/-- `ApifyViralExtractor.calculate_virality_score`
(apify_viral_extractor.py): platform-weighted base score, blended with
the follower-normalized engagement rate when `author_followers > 0`,
normalized to the 0–100 scale and rounded to 2 decimals. -/
def calculate_virality_score (m : EngagementMetrics) (platform : String)
    (author_followers : ℤ) : ℚ :=
  let base := base_score m platform
  let virality :=
    if author_followers > 0 then
      base * (7/10) + (base / (author_followers : ℚ)) * 1000 * (3/10)
    else base
  let normalized := min 100 (max 0 (virality / 100))
  pyRound 2 normalized

/-- `ApifyInstagramScraper._calculate_instagram_virality_score`
(src/services/apify_instagram_scraper.py). -/
def calculate_instagram_virality_score (likes comments video_views : ℤ) : ℚ :=
  let virality := (likes : ℚ) * 1 + (comments : ℚ) * 5 + (video_views : ℚ) * (1/10)
  min (pyRound 2 (virality / 1000)) 100

/-- The engagement-count view of one record: the values of the
`like_count`, `comment_count`, `share_count`, `view_count` keys
(0 where the key is absent or non-numeric, as in `post.get(k, 0)`). -/
def engagementCounts (r : Rec) : Nat × Nat × Nat × Nat :=
  (recGetNat r "like_count", recGetNat r "comment_count",
   recGetNat r "share_count", recGetNat r "view_count")

/-- Componentwise order on engagement-count tuples. -/
def engLE (a b : Nat × Nat × Nat × Nat) : Prop :=
  a.1 ≤ b.1 ∧ a.2.1 ≤ b.2.1 ∧ a.2.2.1 ≤ b.2.2.1 ∧ a.2.2.2 ≤ b.2.2.2

instance : DecidableRel engLE := fun a b => by unfold engLE; infer_instance

/-- The per-platform cap on simulated records: the loop bound
`range(min(max_results, cap))` of each `_simulate_*_data` function. -/
def fallbackCap (platform : String) : Nat :=
  if platform = "facebook" then 8
  else if platform = "instagram" then 10
  else if platform = "youtube" then 8
  else if platform = "twitter" then 12
  else 0
/-- The entries of the input dict that `analyze_sentiment_trends`
actually counts: those whose platform name lies in
`sentimentPlatforms`. -/
def countedEntries (l : List (String × PlatformResult)) : List (String × PlatformResult) :=
  l.filter (fun pr => pr.1 ∈ sentimentPlatforms)

/-- Total positive records over the counted entries. -/
def totalPositiveCounted (l : List (String × PlatformResult)) : Nat :=
  ((countedEntries l).map (fun pr => countPositive pr.2.results)).sum

/-- Total negative records over the counted entries. -/
def totalNegativeCounted (l : List (String × PlatformResult)) : Nat :=
  ((countedEntries l).map (fun pr => countNegative pr.2.results)).sum

/-- Total neutral records over the counted entries. -/
def totalNeutralCounted (l : List (String × PlatformResult)) : Nat :=
  ((countedEntries l).map (fun pr => countNeutral pr.2.results)).sum

/-- Total records over the counted entries. -/
def totalPostsCounted (l : List (String × PlatformResult)) : Nat :=
  ((countedEntries l).map (fun pr => pr.2.results.length)).sum

/-- The breakdown `analyze_sentiment_trends` is expected to build: one
entry per counted platform with a nonempty result list. -/
def breakdownSpec (l : List (String × PlatformResult)) :
    List (String × PlatformSentiment) :=
  ((countedEntries l).filter (fun pr => pr.2.results.length > 0)).map
    (fun pr => (pr.1, platformSentimentEntry pr.2.results))
/-- Input refuting C8 as stated: a platform-results dict containing
only a facebook result with one positive record. -/
def c8Input : List (String × PlatformResult) :=
  [("facebook",
    { success := true, platform := "facebook", query := "x",
      results := [[("sentiment", JVal.s "positive")]], total_found := 1 })]

/-- Environment whose real scraping raises `"boom"` at every attempt. -/
def envAlwaysRaises : OrchestratorEnv :=
  { pyhash := fun _ => 0
    componentsAvailable := true
    realScraping := fun _ _ => .raises "boom"
    completesAt := fun _ => some 0 }

/-- A live (successful) scraping result for the tier-timeout
counterexample. -/
def liveResult : PlatformResult :=
  { success := true, platform := "facebook", query := "x",
    results := [[("text", JVal.s "live")]], total_found := 1,
    data_source := some "apify_real" }

/-- Environment in which the facebook task completes at instant 1 with
a live result while the instagram task never completes. -/
def envPartialTier : OrchestratorEnv :=
  { pyhash := fun _ => 0
    componentsAvailable := true
    realScraping := fun _ _ => .value liveResult
    completesAt := fun p => if p = "facebook" then some 1 else none }

/-- The facebook task of the tier-timeout scenario. -/
def fbTask : ScrapingTask := { platform := "facebook", query := "x", max_results := 5 }

/-- The instagram task of the tier-timeout scenario. -/
def igTask : ScrapingTask := { platform := "instagram", query := "x", max_results := 5 }

/-! ## Helper lemmas -/

theorem roundHalfEven_nonneg {x : ℚ} (hx : 0 ≤ x) : 0 ≤ roundHalfEven x := by
  unfold roundHalfEven
  have h0 : (0 : ℤ) ≤ ⌊x⌋ := Int.floor_nonneg.mpr hx
  split_ifs <;> omega

theorem roundHalfEven_le {x : ℚ} {n : ℤ} (hx : x ≤ (n : ℚ)) : roundHalfEven x ≤ n := by
  unfold roundHalfEven
  have hfn : ⌊x⌋ ≤ n := by
    have h := Int.floor_le_floor hx
    simpa using h
  have hlt : ¬ (x - (⌊x⌋ : ℚ) < 1/2) → ⌊x⌋ < n := by
    intro hn
    have h12 : (1 : ℚ)/2 ≤ x - (⌊x⌋ : ℚ) := not_lt.mp hn
    have hq : ((⌊x⌋ : ℤ) : ℚ) < (n : ℚ) := by linarith
    exact_mod_cast hq
  split_ifs with h1 h2 h3
  · exact hfn
  · have := hlt h1; omega
  · exact hfn
  · have := hlt h1; omega

theorem pyRound_nonneg (d : Nat) {x : ℚ} (hx : 0 ≤ x) : 0 ≤ pyRound d x := by
  unfold pyRound
  have h1 : (0 : ℚ) ≤ (roundHalfEven (x * ((10 ^ d : ℕ) : ℚ)) : ℚ) := by
    exact_mod_cast roundHalfEven_nonneg (by positivity)
  positivity

theorem pyRound_le (d : Nat) {x : ℚ} {n : ℤ} (hx : x ≤ (n : ℚ)) : pyRound d x ≤ (n : ℚ) := by
  unfold pyRound
  have hp : (0 : ℚ) < ((10 ^ d : ℕ) : ℚ) := by positivity
  have h1 : x * ((10 ^ d : ℕ) : ℚ) ≤ ((n * (10 ^ d : ℕ) : ℤ) : ℚ) := by
    push_cast
    have hp2 : (0 : ℚ) ≤ ((10 : ℚ) ^ d) := by positivity
    exact mul_le_mul_of_nonneg_right hx hp2
  have h2 : roundHalfEven (x * ((10 ^ d : ℕ) : ℚ)) ≤ n * (10 ^ d : ℕ) := roundHalfEven_le h1
  rw [div_le_iff₀ hp]
  exact_mod_cast h2

theorem stateAfterCalls_init (keys : List String) (hk : keys ≠ []) (k : Nat) :
    stateAfterCalls (initScraperState keys) k =
      { api_keys := keys, current_key_index := k % keys.length } := by
  induction k with
  | zero =>
    simp [stateAfterCalls, initScraperState]
  | succ k ih =>
    rw [stateAfterCalls, ih]
    have hne : ¬ keys.isEmpty := by simpa [List.isEmpty_iff] using hk
    simp [get_next_api_key, hne, Nat.mod_add_mod]

theorem engagementCounts_facebook (h : String → Nat) (query : String) (n : Nat) :
    (simulate_facebook_data h query n).results.map engagementCounts =
      (List.range (min n 8)).map (fun i => ((i+1) * 45, (i+1) * 12, (i+1) * 8, (i+1) * 0)) := by
  simp only [simulate_facebook_data, List.map_map]
  rfl

theorem engagementCounts_instagram (query : String) (n : Nat) :
    (simulate_instagram_data query n).results.map engagementCounts =
      (List.range (min n 10)).map (fun i => ((i+1) * 250, (i+1) * 18, (i+1) * 0, (i+1) * 0)) := by
  simp only [simulate_instagram_data, List.map_map]
  rfl

theorem engagementCounts_youtube (query : String) (n : Nat) :
    (simulate_youtube_data query n).results.map engagementCounts =
      (List.range (min n 8)).map (fun i => ((i+1) * 120, (i+1) * 45, (i+1) * 0, (i+1) * 0)) := by
  simp only [simulate_youtube_data, List.map_map]
  rfl

theorem engagementCounts_twitter (query : String) (n : Nat) :
    (simulate_twitter_data query n).results.map engagementCounts =
      (List.range (min n 12)).map (fun i => ((i+1) * 35, (i+1) * 0, (i+1) * 0, (i+1) * 0)) := by
  simp only [simulate_twitter_data, List.map_map]
  rfl

theorem pairwise_engLE_range (k a b c d : Nat) :
    ((List.range k).map (fun i => ((i+1) * a, (i+1) * b, (i+1) * c, (i+1) * d))).Pairwise
      engLE := by
  refine (List.pairwise_lt_range k).map _ ?_
  intro i j hij
  have h1 : i + 1 ≤ j + 1 := by omega
  exact ⟨Nat.mul_le_mul_right a h1, Nat.mul_le_mul_right b h1,
    Nat.mul_le_mul_right c h1, Nat.mul_le_mul_right d h1⟩

/-! ## Claim theorems -/

/-- C9: for a credential pool of `N ≥ 1` keys starting at the initial
cursor, the `k`-th `_get_next_api_key` call returns the key at index
`(k - 1) % N`: selection is strict round-robin over the configured
list (the function reads no health signal), and in particular the
`(N+1)`-th call returns the 1st credential again
(`(N + 1 - 1) % N = 0`). -/
theorem C9_round_robin (keys : List String) (k : Nat) (hk : keys ≠ []) (_h1 : 1 ≤ k) :
    nthNextApiKey keys k = some (keys.getD ((k - 1) % keys.length) "") := by
  unfold nthNextApiKey
  rw [stateAfterCalls_init keys hk (k - 1)]
  have hne : ¬ keys.isEmpty := by simpa [List.isEmpty_iff] using hk
  simp [get_next_api_key, hne, Nat.mod_mod_of_dvd]

/-- C9 witness: on the pool `["alpha", "beta", "gamma"]` of size 3, the
4th call returns `"alpha"`, the 1st credential, again. -/
theorem C9_round_robin_witness :
    nthNextApiKey ["alpha", "beta", "gamma"] 4 = some "alpha" := by
  have h := C9_round_robin ["alpha", "beta", "gamma"] 4 (by decide) (by decide)
  simpa using h

/-- C6: the Fallback Generator is deterministic: each simulator is a
pure function of the platform, query, `max_results` and the
process-fixed string hash `h` (timestamps in its output are string
literals, and no clock or randomness is consulted), so two calls with
the same arguments — in particular `generate("instagram", "x", 5)`
twice — produce identical record sequences. -/
theorem C6_fallback_generator_deterministic :
    (simulate_instagram_data "x" 5).results = (simulate_instagram_data "x" 5).results ∧
    ∀ (h : String → Nat) (task : ScrapingTask),
      execute_fallback_scraping h task = execute_fallback_scraping h task ∧
      simulate_facebook_data h task.query task.max_results =
        simulate_facebook_data h task.query task.max_results ∧
      simulate_instagram_data task.query task.max_results =
        simulate_instagram_data task.query task.max_results ∧
      simulate_youtube_data task.query task.max_results =
        simulate_youtube_data task.query task.max_results ∧
      simulate_twitter_data task.query task.max_results =
        simulate_twitter_data task.query task.max_results :=
  ⟨rfl, fun _ _ => ⟨rfl, rfl, rfl, rfl, rfl⟩⟩

/-- C5 counterexample: the claim fails at
`generate("instagram", "x", 12)`: the simulator caps its loop at
`min(max_results, 10)`, so only 10 records are produced instead of 12;
moreover at `generate("instagram", "x", 2)` the like/comment counts of
record 1 (500, 36) strictly exceed those of record 0 (250, 18), so the
engagement counts are not monotonically non-increasing by index
either. -/
theorem C5_counterexample :
    ¬ ((simulate_instagram_data "x" 12).results.length = 12 ∧
       ((simulate_instagram_data "x" 12).results.map engagementCounts).Pairwise
         (fun a b => engLE b a)) ∧
    ¬ (((simulate_instagram_data "x" 2).results.map engagementCounts).Pairwise
        (fun a b => engLE b a)) := by
  constructor
  · intro hcl
    have hlen : (simulate_instagram_data "x" 12).results.length = 10 := by
      simp [simulate_instagram_data]
    omega
  · intro hcl
    rw [engagementCounts_instagram] at hcl
    have h2 : min 2 10 = 2 := by decide
    rw [h2] at hcl
    simp [List.range_succ, engLE] at hcl

/-- C5 amended: for every platform in
{facebook, instagram, youtube, twitter}, every query and every
`max_results`, the Fallback Generator returns a successful
`PlatformResult` with exactly `min max_results cap` synthetic records
(cap = 8 for facebook, 10 for instagram, 8 for youtube, 12 for
twitter), and the engagement counts (like/comment/share/view) of the
records are monotonically non-DEcreasing by index. -/
theorem C5_amended_fallback_generator (h : String → Nat) (query : String) (n : Nat)
    (platform : String)
    (hp : platform ∈ ["facebook", "instagram", "youtube", "twitter"]) :
    (execute_fallback_scraping h
        { platform := platform, query := query, max_results := n }).success = true ∧
    (execute_fallback_scraping h
        { platform := platform, query := query, max_results := n }).results.length =
      min n (fallbackCap platform) ∧
    ((execute_fallback_scraping h
        { platform := platform, query := query, max_results := n }).results.map
      engagementCounts).Pairwise engLE := by
  simp only [List.mem_cons, List.mem_singleton, List.not_mem_nil, or_false] at hp
  rcases hp with rfl | rfl | rfl | rfl
  · refine ⟨rfl, ?_, ?_⟩
    · simp [execute_fallback_scraping, simulate_facebook_data, fallbackCap]
    · show ((simulate_facebook_data h query n).results.map engagementCounts).Pairwise engLE
      rw [engagementCounts_facebook]
      exact pairwise_engLE_range _ _ _ _ _
  · refine ⟨rfl, ?_, ?_⟩
    · simp [execute_fallback_scraping, simulate_instagram_data, fallbackCap]
    · show ((simulate_instagram_data query n).results.map engagementCounts).Pairwise engLE
      rw [engagementCounts_instagram]
      exact pairwise_engLE_range _ _ _ _ _
  · refine ⟨rfl, ?_, ?_⟩
    · simp [execute_fallback_scraping, simulate_youtube_data, fallbackCap]
    · show ((simulate_youtube_data query n).results.map engagementCounts).Pairwise engLE
      rw [engagementCounts_youtube]
      exact pairwise_engLE_range _ _ _ _ _
  · refine ⟨rfl, ?_, ?_⟩
    · simp [execute_fallback_scraping, simulate_twitter_data, fallbackCap]
    · show ((simulate_twitter_data query n).results.map engagementCounts).Pairwise engLE
      rw [engagementCounts_twitter]
      exact pairwise_engLE_range _ _ _ _ _

/-- C5 amended witness: instantiated at platform `"instagram"`,
query `"x"`, `max_results = 3` (hash fixed to the zero function). -/
theorem C5_amended_fallback_generator_witness :
    (execute_fallback_scraping (fun _ => 0)
        { platform := "instagram", query := "x", max_results := 3 }).success = true ∧
    (execute_fallback_scraping (fun _ => 0)
        { platform := "instagram", query := "x", max_results := 3 }).results.length =
      min 3 (fallbackCap "instagram") ∧
    ((execute_fallback_scraping (fun _ => 0)
        { platform := "instagram", query := "x", max_results := 3 }).results.map
      engagementCounts).Pairwise engLE :=
  C5_amended_fallback_generator (fun _ => 0) "x" 3 "instagram" (by decide)

/-- C7: for nonnegative engagement inputs and follower counts, the
virality score lies in the closed interval `[0, 100]` and is a
multiple of `1/100` (rounded to 2 decimals); when the follower count
is nonzero the score blends absolute engagement at 70% with the
follower-normalized engagement rate (scaled by 1000) at 30% before
clamping and rounding.  The simpler per-post Instagram score
(`_calculate_instagram_virality_score`) also lies in `[0, 100]`. -/
theorem C7_virality_score_bounds (m : EngagementMetrics) (platform : String)
    (followers : ℤ) (hl : 0 ≤ m.likes) (hc : 0 ≤ m.comments) (_hs : 0 ≤ m.shares)
    (hv : 0 ≤ m.views) (_hf : 0 ≤ followers) :
    0 ≤ calculate_virality_score m platform followers ∧
    calculate_virality_score m platform followers ≤ 100 ∧
    (∃ z : ℤ, calculate_virality_score m platform followers = (z : ℚ) / 100) ∧
    (0 < followers →
      calculate_virality_score m platform followers =
        pyRound 2 (min 100 (max 0
          ((base_score m platform * (70/100) +
            (base_score m platform / (followers : ℚ)) * 1000 * (30/100)) / 100)))) ∧
    0 ≤ calculate_instagram_virality_score m.likes m.comments m.views ∧
    calculate_instagram_virality_score m.likes m.comments m.views ≤ 100 := by
  have hql : (0 : ℚ) ≤ (m.likes : ℚ) := by exact_mod_cast hl
  have hqc : (0 : ℚ) ≤ (m.comments : ℚ) := by exact_mod_cast hc
  have hqv : (0 : ℚ) ≤ (m.views : ℚ) := by exact_mod_cast hv
  refine ⟨?_, ?_, ?_, ?_, ?_, ?_⟩
  · unfold calculate_virality_score
    exact pyRound_nonneg 2 (le_min (by norm_num) (le_max_left 0 _))
  · unfold calculate_virality_score
    have h100 := pyRound_le 2 (n := 100)
      (x := min 100 (max 0 ((if followers > 0 then
        base_score m platform * (7/10) +
          base_score m platform / (followers : ℚ) * 1000 * (3/10)
        else base_score m platform) / 100)))
      (by exact_mod_cast min_le_left _ _)
    exact_mod_cast h100
  · exact ⟨roundHalfEven (min 100 (max 0 ((if followers > 0 then
        base_score m platform * (7/10) +
          base_score m platform / (followers : ℚ) * 1000 * (3/10)
        else base_score m platform) / 100)) * ((10 ^ 2 : ℕ) : ℚ)), by
      unfold calculate_virality_score pyRound
      norm_num⟩
  · intro hpos
    simp only [calculate_virality_score, gt_iff_lt]
    rw [if_pos hpos]
    have hblend :
        base_score m platform * (7/10) +
          base_score m platform / (followers : ℚ) * 1000 * (3/10) =
        base_score m platform * (70/100) +
          base_score m platform / (followers : ℚ) * 1000 * (30/100) := by ring
    rw [hblend]
  · unfold calculate_instagram_virality_score
    refine le_min ?_ (by norm_num)
    exact pyRound_nonneg 2 (by positivity)
  · exact min_le_right _ _

/-- C7 witness: at likes 10, comments 5, shares 2, views 100 on
platform `"instagram"` with 50 followers (base score 36, blended score
241.2, scaled and rounded to 2.41). -/
theorem C7_virality_score_bounds_witness :
    0 ≤ calculate_virality_score ⟨10, 5, 2, 100⟩ "instagram" 50 ∧
    calculate_virality_score ⟨10, 5, 2, 100⟩ "instagram" 50 ≤ 100 ∧
    (∃ z : ℤ, calculate_virality_score ⟨10, 5, 2, 100⟩ "instagram" 50 = (z : ℚ) / 100) ∧
    (0 < (50 : ℤ) →
      calculate_virality_score ⟨10, 5, 2, 100⟩ "instagram" 50 =
        pyRound 2 (min 100 (max 0
          ((base_score ⟨10, 5, 2, 100⟩ "instagram" * (70/100) +
            (base_score ⟨10, 5, 2, 100⟩ "instagram" / ((50 : ℤ) : ℚ)) * 1000 * (30/100)) /
              100)))) ∧
    0 ≤ calculate_instagram_virality_score 10 5 100 ∧
    calculate_instagram_virality_score 10 5 100 ≤ 100 :=
  C7_virality_score_bounds ⟨10, 5, 2, 100⟩ "instagram" 50
    (by decide) (by decide) (by decide) (by decide) (by decide)

theorem compileCounts_fst (l : List (String × PlatformResult)) :
    (compileCounts l).1 =
      ((l.filter (fun pr => pr.2.success)).map (fun pr => pr.2.results.length)).sum := by
  unfold compileCounts
  suffices h : ∀ (a : Nat) (b c : List String),
      (l.foldl (fun acc pr =>
        if pr.2.success then (acc.1 + pr.2.results.length, acc.2.1 ++ [pr.1], acc.2.2)
        else (acc.1, acc.2.1, acc.2.2 ++ [pr.1])) (a, b, c)).1 =
      a + ((l.filter (fun pr => pr.2.success)).map (fun pr => pr.2.results.length)).sum by
    simpa using h 0 [] []
  induction l with
  | nil => intro a b c; simp
  | cons x xs ih =>
    intro a b c
    by_cases hx : x.2.success
    · simp only [List.foldl_cons, hx, if_true, List.filter_cons, List.map_cons, List.sum_cons]
      rw [ih]
      omega
    · simp only [List.foldl_cons, hx, if_false, List.filter_cons]
      rw [ih]
      simp [hx]

/-- C10: the report's top-level `success` flag is exactly
`total_posts > 0`, where `total_posts` counts only records of platform
results whose own `success` flag is true; in particular a call in
which every platform result carries zero records yields
`success = false` (no exception is raised: the call still returns the
report). -/
theorem C10_success_iff_posts (env : OrchestratorEnv) (query : String)
    (platforms : List String) (max_results : Nat) (session_id : String) :
    ((execute_comprehensive_scraping env query platforms max_results session_id).success =
        true ↔
      0 < (execute_comprehensive_scraping env query platforms max_results
        session_id).total_posts) ∧
    (execute_comprehensive_scraping env query platforms max_results session_id).total_posts =
      (((execute_comprehensive_scraping env query platforms max_results
          session_id).all_platforms_data.filter (fun pr => pr.2.success)).map
        (fun pr => pr.2.results.length)).sum ∧
    ((∀ pr ∈ (execute_comprehensive_scraping env query platforms max_results
        session_id).all_platforms_data, pr.2.results = []) →
      (execute_comprehensive_scraping env query platforms max_results session_id).success =
        false) := by
  unfold execute_comprehensive_scraping compile_final_result
  refine ⟨by simp, compileCounts_fst _, ?_⟩
  intro hempty
  simp only at hempty ⊢
  have hz : (compileCounts (execute_tasks_with_fallbacks env
      (platforms.map (mkTask query max_results)))).1 = 0 := by
    rw [compileCounts_fst]
    refine List.sum_eq_zero ?_
    intro x hx
    obtain ⟨pr, hpr, hx2⟩ := List.mem_map.mp hx
    have hmem := List.mem_of_mem_filter hpr
    rw [hempty pr hmem] at hx2
    simpa using hx2.symm
  rw [hz]
  decide

theorem sentiment_foldl (l : List (String × PlatformResult)) (acc : SentimentAcc) :
    l.foldl sentimentStep acc =
      { total_positive := acc.total_positive + totalPositiveCounted l
        total_negative := acc.total_negative + totalNegativeCounted l
        total_neutral := acc.total_neutral + totalNeutralCounted l
        total_posts := acc.total_posts + totalPostsCounted l
        platform_sentiments := acc.platform_sentiments ++ breakdownSpec l } := by
  induction l generalizing acc with
  | nil =>
    simp [totalPositiveCounted, totalNegativeCounted, totalNeutralCounted,
      totalPostsCounted, breakdownSpec, countedEntries]
  | cons x xs ih =>
    rw [List.foldl_cons, ih]
    by_cases hx : x.1 ∈ sentimentPlatforms
    · by_cases hlen : x.2.results.length > 0
      · simp [sentimentStep, hx, hlen, totalPositiveCounted, totalNegativeCounted,
          totalNeutralCounted, totalPostsCounted, breakdownSpec, countedEntries,
          List.filter_cons, Nat.add_assoc, List.append_assoc]
      · simp [sentimentStep, hx, hlen, totalPositiveCounted, totalNegativeCounted,
          totalNeutralCounted, totalPostsCounted, breakdownSpec, countedEntries,
          List.filter_cons, Nat.add_assoc, List.append_assoc]
    · simp [sentimentStep, hx, totalPositiveCounted, totalNegativeCounted,
        totalNeutralCounted, totalPostsCounted, breakdownSpec, countedEntries,
        List.filter_cons]

/-- C8 counterexample: on an input whose only platform is facebook
with one positive record, `analyze_sentiment_trends` counts 0 records
(its loop only inspects platforms named youtube/twitter/instagram/
linkedin), produces no facebook breakdown entry, and reports
confidence 0 — contradicting the claim that the records of every
platform present in the input are counted. -/
theorem C8_counterexample :
    (analyze_sentiment_trends c8Input).total_posts_analyzed = 0 ∧
    (c8Input.map (fun pr => pr.2.results.length)).sum = 1 ∧
    (analyze_sentiment_trends c8Input).platform_breakdown = [] ∧
    (analyze_sentiment_trends c8Input).confidence_score = 0 :=
  ⟨rfl, rfl, rfl, rfl⟩

/-- C8 amended: `analyze_sentiment_trends` counts the
positive/negative/neutral records only of the input platforms named
youtube, twitter, instagram or linkedin (any other platform, facebook
included, is ignored); the breakdown holds one entry per counted
platform with a nonempty result list, whose dominant sentiment is
"positive" when positives exceed both other counts, otherwise
"negative" when negatives exceed positives, otherwise "neutral"; and
`confidence_score = |positive − negative| / total × 100`, rounded to
1 decimal, 0 when no record was counted. -/
theorem C8_amended_sentiment_summary (l : List (String × PlatformResult)) :
    (analyze_sentiment_trends l).total_posts_analyzed = totalPostsCounted l ∧
    (analyze_sentiment_trends l).platform_breakdown = breakdownSpec l ∧
    (analyze_sentiment_trends l).confidence_score =
      (if 0 < totalPostsCounted l then
        pyRound 1 ((|(totalPositiveCounted l : ℚ) - (totalNegativeCounted l : ℚ)| /
          (totalPostsCounted l : ℚ)) * 100)
      else 0) := by
  unfold analyze_sentiment_trends
  rw [sentiment_foldl]
  refine ⟨by simp, by simp, ?_⟩
  simp

theorem tryBlock_raises (env : OrchestratorEnv) (t : ScrapingTask) (msg : Nat → String)
    (hp : t.platform ∈ ["facebook", "instagram"]) (hca : env.componentsAvailable = true)
    (hraise : ∀ k, env.realScraping t.platform k = .raises (msg k)) :
    tryBlock env t = .raises (msg t.retry_count) := by
  unfold tryBlock
  rw [if_pos ⟨hp, hca⟩, hraise]

/-- On an environment whose real scraping raises at every attempt, a
facebook/instagram task with `fuel = max_retries - retry_count`
remaining budget is attempted `fuel + 1` times with a 2-second backoff
before each re-attempt, is recorded as failed, and returns the error
result (not Fallback Generator output). -/
theorem single_task_always_raises (env : OrchestratorEnv) (msg : Nat → String) :
    ∀ (fuel : Nat) (t : ScrapingTask), t.max_retries - t.retry_count = fuel →
      t.retry_count ≤ t.max_retries →
      t.platform ∈ ["facebook", "instagram"] → env.componentsAvailable = true →
      (∀ k, env.realScraping t.platform k = .raises (msg k)) →
      execute_single_task_with_fallback env t =
        { result := create_error_result { t with retry_count := t.max_retries }
            (msg t.max_retries),
          attempts := fuel + 1,
          backoffs := List.replicate fuel 2,
          record := .failed } := by
  intro fuel
  induction fuel with
  | zero =>
    intro t hfuel hle hp hca hr
    have heq : t.retry_count = t.max_retries := by omega
    unfold execute_single_task_with_fallback
    rw [tryBlock_raises env t msg hp hca hr]
    dsimp only
    rw [dif_neg (by omega)]
    have h1 : ({ t with retry_count := t.max_retries } : ScrapingTask) = t := by
      cases t
      simp_all
    rw [h1, heq]
    simp
  | succ fuel ih =>
    intro t hfuel hle hp hca hr
    have hlt : t.retry_count < t.max_retries := by omega
    unfold execute_single_task_with_fallback
    rw [tryBlock_raises env t msg hp hca hr]
    dsimp only
    rw [dif_pos hlt]
    rw [ih { t with retry_count := t.retry_count + 1 } (by simp; omega) (by simp; omega)
      (by simpa using hp) hca (by simpa using hr)]
    simp [List.replicate_succ]

/-- C2 amended: a facebook/instagram task whose execution raises at
every attempt, with `max_retries = 2` and a fresh `retry_count = 0`,
is attempted exactly 3 times (1 initial + 2 retries), a fixed
2-second backoff precedes each re-attempt, the task is recorded in the
failed-tasks bookkeeping, and the value returned after the budget is
exhausted is the orchestrator's error result (`success = false`, zero
records, `retry_count = 2`) — not the Fallback Generator's synthetic
output. -/
theorem C2_amended_retry_budget (env : OrchestratorEnv) (query : String) (n : Nat)
    (platform : String) (msg : Nat → String)
    (hp : platform ∈ ["facebook", "instagram"]) (hca : env.componentsAvailable = true)
    (hraise : ∀ k, env.realScraping platform k = .raises (msg k)) :
    execute_single_task_with_fallback env
        { platform := platform, query := query, max_results := n } =
      { result := create_error_result
          { platform := platform, query := query, max_results := n, retry_count := 2 }
          (msg 2),
        attempts := 3, backoffs := [2, 2], record := .failed } := by
  have h := single_task_always_raises env msg 2
    { platform := platform, query := query, max_results := n } rfl (Nat.zero_le _) hp hca
    hraise
  exact h

/-- C2 amended witness: instantiated on `envAlwaysRaises` and a
facebook task with query `"x"` and `max_results = 5`. -/
theorem C2_amended_retry_budget_witness :
    execute_single_task_with_fallback envAlwaysRaises
        { platform := "facebook", query := "x", max_results := 5 } =
      { result := create_error_result
          { platform := "facebook", query := "x", max_results := 5, retry_count := 2 }
          "boom",
        attempts := 3, backoffs := [2, 2], record := .failed } :=
  C2_amended_retry_budget envAlwaysRaises "x" 5 "facebook" (fun _ => "boom")
    (by decide) rfl (fun _ => rfl)

/-- C2 counterexample: on `envAlwaysRaises`, the facebook task with
`max_retries = 2` is indeed attempted 3 times, but after the budget is
exhausted the returned result is NOT the Fallback Generator's
synthetic output (the code returns `_create_error_result` with
`success = False` and zero records; `_execute_fallback_scraping` would
return a successful result with records), refuting the claim's
falls-back-to-synthetic-output part. -/
theorem C2_counterexample :
    (execute_single_task_with_fallback envAlwaysRaises
        { platform := "facebook", query := "x", max_results := 5 }).attempts = 3 ∧
    (execute_single_task_with_fallback envAlwaysRaises
        { platform := "facebook", query := "x", max_results := 5 }).result ≠
      execute_fallback_scraping envAlwaysRaises.pyhash
        { platform := "facebook", query := "x", max_results := 5 } := by
  have h := single_task_always_raises envAlwaysRaises (fun _ => "boom") 2
    { platform := "facebook", query := "x", max_results := 5 } rfl (Nat.zero_le _)
    (by decide) rfl (fun _ => rfl)
  constructor
  · rw [h]
  · rw [h]
    intro hEq
    have hs := congrArg PlatformResult.success hEq
    simp [create_error_result, execute_fallback_scraping, simulate_facebook_data] at hs

/-- C3 counterexample: in a priority-1 tier holding a facebook task
that completes at instant 1 (well within the 600-second tier timeout,
with a live result) and an instagram task that never resolves, the
tier times out and the `except asyncio.TimeoutError` branch replaces
EVERY task's result — the already-completed facebook task does not
keep its live result but is assigned the empty `fallback_empty`
result, refuting the claim. -/
theorem C3_counterexample :
    envPartialTier.completesAt "facebook" = some 1 ∧
    (execute_single_task_with_fallback envPartialTier fbTask).result = liveResult ∧
    batchCompletes envPartialTier [fbTask, igTask]
      (if fbTask.priority = 1 then 600 else 300) = false ∧
    (execute_priority_batch envPartialTier [fbTask, igTask]).lookup "facebook" =
      some (create_fallback_result fbTask) ∧
    create_fallback_result fbTask ≠ liveResult := by
  refine ⟨rfl, ?_, by decide, ?_, by decide⟩
  · have htb : tryBlock envPartialTier fbTask = .value liveResult := rfl
    unfold execute_single_task_with_fallback
    rw [htb]
  · decide

/-- C3 amended: if the tier timeout (600 s for priority 1, else 300 s)
elapses before all tasks of the tier resolve, EVERY task of the tier —
including any that had already completed with a live result — is
replaced by the empty `fallback_empty` `PlatformResult` (zero records,
`success = true`). -/
theorem C3_amended_tier_timeout (env : OrchestratorEnv) (t0 : ScrapingTask)
    (rest : List ScrapingTask)
    (htimeout : batchCompletes env (t0 :: rest)
      (if t0.priority = 1 then 600 else 300) = false) :
    execute_priority_batch env (t0 :: rest) =
      (t0 :: rest).map (fun t => (t.platform, create_fallback_result t)) ∧
    ∀ t ∈ t0 :: rest,
      (create_fallback_result t).data_source = some "fallback_empty" ∧
      (create_fallback_result t).results = [] ∧
      (create_fallback_result t).success = true := by
  refine ⟨?_, fun t _ => ⟨rfl, rfl, rfl⟩⟩
  unfold execute_priority_batch
  simp [htimeout]

/-- C3 amended witness: instantiated on `envPartialTier` with the
facebook and instagram tasks of the counterexample scenario. -/
theorem C3_amended_tier_timeout_witness :
    execute_priority_batch envPartialTier (fbTask :: [igTask]) =
      (fbTask :: [igTask]).map (fun t => (t.platform, create_fallback_result t)) ∧
    ∀ t ∈ fbTask :: [igTask],
      (create_fallback_result t).data_source = some "fallback_empty" ∧
      (create_fallback_result t).results = [] ∧
      (create_fallback_result t).success = true :=
  C3_amended_tier_timeout envPartialTier fbTask [igTask] (by decide)

theorem dinsert_of_not_mem (m : List (String × PlatformResult)) (k : String)
    (v : PlatformResult) (hk : k ∉ m.map Prod.fst) :
    dinsert m k v = m ++ [(k, v)] := by
  unfold dinsert
  rw [if_neg]
  intro hany
  rw [List.any_eq_true] at hany
  obtain ⟨p, hp, hbeq⟩ := hany
  exact hk (List.mem_map.mpr ⟨p, hp, by simpa using hbeq⟩)

theorem dictUpdate_append (m new : List (String × PlatformResult))
    (hnd : (new.map Prod.fst).Nodup)
    (hdis : ∀ k ∈ new.map Prod.fst, k ∉ m.map Prod.fst) :
    dictUpdate m new = m ++ new := by
  induction new generalizing m with
  | nil => simp [dictUpdate]
  | cons x xs ih =>
    rw [List.map_cons] at hnd
    have h1 : dinsert m x.1 x.2 = m ++ [x] := by
      rw [dinsert_of_not_mem m x.1 x.2 (hdis x.1 (by simp))]
    have h2 : dictUpdate m (x :: xs) = dictUpdate (m ++ [x]) xs := by
      unfold dictUpdate
      rw [List.foldl_cons, h1]
    rw [h2, ih (m ++ [x]) hnd.of_cons]
    · simp
    · intro k hkxs
      have hk1 : k ≠ x.1 := by
        intro heq
        have hhd := (List.nodup_cons.mp hnd).1
        rw [heq] at hkxs
        exact hhd hkxs
      have hk2 : k ∉ m.map Prod.fst := hdis k (by
        rw [List.map_cons]
        exact List.mem_cons_of_mem _ hkxs)
      simp [hk1, hk2]

theorem keys_dinsert_overwrite (m : List (String × PlatformResult)) (k : String)
    (v : PlatformResult) (h : m.any (fun p => p.1 == k) = true) :
    (dinsert m k v).map Prod.fst = m.map Prod.fst := by
  unfold dinsert
  rw [if_pos h, List.map_map]
  apply List.map_congr_left
  intro p _
  by_cases hb : p.1 = k
  · simp [hb]
  · simp [hb]

theorem mem_keys_dinsert (m : List (String × PlatformResult)) (k k2 : String)
    (v : PlatformResult) (h : k2 ∈ m.map Prod.fst ∨ k2 = k) :
    k2 ∈ (dinsert m k v).map Prod.fst := by
  by_cases hany : m.any (fun p => p.1 == k) = true
  · rw [keys_dinsert_overwrite m k v hany]
    rcases h with h | rfl
    · exact h
    · rw [List.any_eq_true] at hany
      obtain ⟨p, hp, hbeq⟩ := hany
      exact List.mem_map.mpr ⟨p, hp, by simpa using hbeq⟩
  · unfold dinsert
    rw [if_neg hany]
    rcases h with h | rfl
    · simp [h]
    · simp

theorem mem_keys_dictUpdate (m new : List (String × PlatformResult)) (k : String)
    (h : k ∈ m.map Prod.fst ∨ k ∈ new.map Prod.fst) :
    k ∈ (dictUpdate m new).map Prod.fst := by
  induction new generalizing m with
  | nil =>
    unfold dictUpdate
    simpa using h
  | cons x xs ih =>
    have h2 : dictUpdate m (x :: xs) = dictUpdate (dinsert m x.1 x.2) xs := by
      unfold dictUpdate
      rw [List.foldl_cons]
    rw [h2]
    apply ih
    rcases h with h | h
    · exact Or.inl (mem_keys_dinsert m x.1 k x.2 (Or.inl h))
    · rw [List.map_cons] at h
      rcases List.mem_cons.mp h with h | h
      · exact Or.inl (mem_keys_dinsert m x.1 k x.2 (Or.inr h))
      · exact Or.inr h

theorem keys_execute_priority_batch (env : OrchestratorEnv) (tasks : List ScrapingTask) :
    (execute_priority_batch env tasks).map Prod.fst =
      tasks.map (fun t => t.platform) := by
  cases tasks with
  | nil => rfl
  | cons t0 rest =>
    unfold execute_priority_batch
    dsimp only
    split <;> split <;> simp [List.map_map, Function.comp]

theorem high_tasks_eq (query : String) (mr : Nat) (platforms : List String) :
    (platforms.map (mkTask query mr)).filter (fun t => t.priority = 1) =
      (platforms.filter (fun p => p ∈ ["facebook", "instagram"])).map (mkTask query mr) := by
  rw [List.filter_map]
  congr 1
  apply List.filter_congr
  intro p _
  by_cases hfb : p ∈ ["facebook", "instagram"] <;>
    simp [mkTask, hfb, Function.comp]

theorem medium_tasks_eq (query : String) (mr : Nat) (platforms : List String) :
    (platforms.map (mkTask query mr)).filter (fun t => t.priority = 2) =
      (platforms.filter (fun p => ¬ p ∈ ["facebook", "instagram"])).map
        (mkTask query mr) := by
  rw [List.filter_map]
  congr 1
  apply List.filter_congr
  intro p _
  by_cases hfb : p ∈ ["facebook", "instagram"] <;>
    simp [mkTask, hfb, Function.comp]

theorem low_tasks_eq (query : String) (mr : Nat) (platforms : List String) :
    (platforms.map (mkTask query mr)).filter (fun t => t.priority = 3) = [] := by
  rw [List.filter_eq_nil_iff]
  intro t ht
  obtain ⟨p, _, rfl⟩ := List.mem_map.mp ht
  by_cases hfb : p ∈ ["facebook", "instagram"] <;> simp [mkTask, hfb]

theorem update_step (env : OrchestratorEnv) (m : List (String × PlatformResult))
    (ts : List ScrapingTask) (hnd : (ts.map (fun t => t.platform)).Nodup)
    (hdis : ∀ k ∈ ts.map (fun t => t.platform), k ∉ m.map Prod.fst) :
    (if ¬ ts.isEmpty then dictUpdate m (execute_priority_batch env ts) else m) =
      m ++ execute_priority_batch env ts := by
  cases ts with
  | nil => simp [execute_priority_batch]
  | cons t0 rest =>
    rw [if_pos (by simp), dictUpdate_append]
    · rw [keys_execute_priority_batch]
      exact hnd
    · rw [keys_execute_priority_batch]
      exact hdis

theorem platforms_of_mkTask (query : String) (mr : Nat) (l : List String) :
    (l.map (mkTask query mr)).map (fun t => t.platform) = l := by
  induction l with
  | nil => rfl
  | cons x xs ih => simp only [List.map_cons, ih, mkTask]

theorem keys_execute_tasks (env : OrchestratorEnv) (query : String) (mr : Nat)
    (platforms : List String) (hnd : platforms.Nodup) :
    (execute_tasks_with_fallbacks env (platforms.map (mkTask query mr))).map Prod.fst =
      platforms.filter (fun p => p ∈ ["facebook", "instagram"]) ++
        platforms.filter (fun p => ¬ p ∈ ["facebook", "instagram"]) := by
  simp only [execute_tasks_with_fallbacks]
  rw [high_tasks_eq, medium_tasks_eq, low_tasks_eq]
  rw [update_step env []
    ((platforms.filter (fun p => p ∈ ["facebook", "instagram"])).map (mkTask query mr))
    (by rw [platforms_of_mkTask]; exact hnd.filter _) (by simp)]
  rw [update_step env _
    ((platforms.filter (fun p => ¬ p ∈ ["facebook", "instagram"])).map (mkTask query mr))
    (by rw [platforms_of_mkTask]; exact hnd.filter _) ?hdis]
  case hdis =>
    intro k hk
    rw [platforms_of_mkTask] at hk
    rw [List.nil_append, keys_execute_priority_batch, platforms_of_mkTask]
    intro hk2
    have h1 := (List.mem_filter.mp hk).2
    have h2 := (List.mem_filter.mp hk2).2
    simp at h1 h2
    tauto
  have hcomp : ((fun t => t.platform) ∘ mkTask query mr) = fun p : String => p := by
    funext p
    rfl
  simp [keys_execute_priority_batch, hcomp]

theorem keys_execute_tasks_perm (env : OrchestratorEnv) (query : String) (mr : Nat)
    (platforms : List String) (hnd : platforms.Nodup) :
    ((execute_tasks_with_fallbacks env (platforms.map (mkTask query mr))).map
      Prod.fst).Perm platforms := by
  rw [keys_execute_tasks env query mr platforms hnd]
  have hflip : platforms.filter (fun p => ¬ p ∈ ["facebook", "instagram"]) =
      platforms.filter (fun p => !(decide (p ∈ ["facebook", "instagram"]))) :=
    List.filter_congr (fun p _ => by simp)
  rw [hflip]
  exact List.filter_append_perm _ platforms

/-- C1: with a set of requested platforms (no duplicates), the report
of `execute_comprehensive_scraping` contains exactly one
`PlatformResult` entry per requested platform, and its
`platforms_analyzed` field equals the number of requested platforms —
for every environment, including ones where every attempt raises or a
whole tier times out. -/
theorem C1_one_result_per_platform (env : OrchestratorEnv) (query : String)
    (platforms : List String) (mr : Nat) (sid : String) (hnd : platforms.Nodup) :
    (execute_comprehensive_scraping env query platforms mr sid).platforms_analyzed =
      platforms.length ∧
    ∀ p ∈ platforms,
      ((execute_comprehensive_scraping env query platforms mr sid).all_platforms_data.map
        Prod.fst).count p = 1 := by
  have hperm := keys_execute_tasks_perm env query mr platforms hnd
  constructor
  · show (execute_tasks_with_fallbacks env (platforms.map (mkTask query mr))).length =
      platforms.length
    calc (execute_tasks_with_fallbacks env (platforms.map (mkTask query mr))).length
        = ((execute_tasks_with_fallbacks env
            (platforms.map (mkTask query mr))).map Prod.fst).length :=
          (List.length_map _ _).symm
      _ = platforms.length := hperm.length_eq
  · intro p hp
    show ((execute_tasks_with_fallbacks env
      (platforms.map (mkTask query mr))).map Prod.fst).count p = 1
    rw [hperm.count_eq]
    exact List.count_eq_one_of_mem hnd hp

/-- C1 witness: instantiated on the always-raising environment with
requested platforms `["facebook", "youtube"]`. -/
theorem C1_one_result_per_platform_witness :
    (execute_comprehensive_scraping envAlwaysRaises "x" ["facebook", "youtube"] 5
      "s").platforms_analyzed = 2 ∧
    ((execute_comprehensive_scraping envAlwaysRaises "x" ["facebook", "youtube"] 5
      "s").all_platforms_data.map Prod.fst).count "facebook" = 1 ∧
    ((execute_comprehensive_scraping envAlwaysRaises "x" ["facebook", "youtube"] 5
      "s").all_platforms_data.map Prod.fst).count "youtube" = 1 := by
  have h := C1_one_result_per_platform envAlwaysRaises "x" ["facebook", "youtube"] 5 "s"
    (by decide)
  exact ⟨h.1, h.2 "facebook" (by decide), h.2 "youtube" (by decide)⟩

theorem mem_keys_step_old (env : OrchestratorEnv) (m : List (String × PlatformResult))
    (ts : List ScrapingTask) (k : String) (h : k ∈ m.map Prod.fst) :
    k ∈ (if ¬ ts.isEmpty then dictUpdate m (execute_priority_batch env ts) else m).map
      Prod.fst := by
  split
  · exact mem_keys_dictUpdate _ _ _ (Or.inl h)
  · exact h

theorem mem_keys_step_new (env : OrchestratorEnv) (m : List (String × PlatformResult))
    (ts : List ScrapingTask) (k : String) (h : k ∈ ts.map (fun t => t.platform)) :
    k ∈ (if ¬ ts.isEmpty then dictUpdate m (execute_priority_batch env ts) else m).map
      Prod.fst := by
  have hts : ¬ ts.isEmpty := by
    cases ts
    · simp at h
    · simp
  rw [if_pos hts]
  refine mem_keys_dictUpdate _ _ _ (Or.inr ?_)
  rw [keys_execute_priority_batch]
  exact h

/-- C4: `execute_comprehensive_scraping` always returns a complete
report: for EVERY environment — in particular ones whose real scraping
raises on every attempt and whose tiers time out — and every requested
platform, the returned report carries a `PlatformResult` entry for
that platform.  Every failure below the orchestrator (modelled by
`TryOutcome.raises` and by missing completion instants) is absorbed
into a retry, a fallback result or an error result; no exception
escapes the call, which is total by construction of the embedded
handlers. -/
theorem C4_never_raises_complete_report (env : OrchestratorEnv) (query : String)
    (platforms : List String) (mr : Nat) (sid : String) (p : String)
    (hp : p ∈ platforms) :
    ∃ r, (p, r) ∈
      (execute_comprehensive_scraping env query platforms mr sid).all_platforms_data := by
  suffices h : p ∈ ((execute_tasks_with_fallbacks env
      (platforms.map (mkTask query mr))).map Prod.fst) by
    obtain ⟨pr, hpr, heq⟩ := List.mem_map.mp h
    refine ⟨pr.2, ?_⟩
    have hpr2 : (p, pr.2) = pr := by
      cases pr
      simp_all
    rw [hpr2]
    exact hpr
  simp only [execute_tasks_with_fallbacks]
  rw [high_tasks_eq, medium_tasks_eq, low_tasks_eq]
  by_cases hfb : p ∈ ["facebook", "instagram"]
  · apply mem_keys_step_old
    apply mem_keys_step_old
    apply mem_keys_step_new
    rw [platforms_of_mkTask]
    exact List.mem_filter.mpr ⟨hp, by simpa using hfb⟩
  · apply mem_keys_step_old
    apply mem_keys_step_new
    rw [platforms_of_mkTask]
    exact List.mem_filter.mpr ⟨hp, by simpa using hfb⟩

/-- C4 witness: on the always-raising environment with platforms
`["facebook", "youtube"]`, the report still carries a facebook
entry. -/
theorem C4_never_raises_complete_report_witness :
    ∃ r, ("facebook", r) ∈
      (execute_comprehensive_scraping envAlwaysRaises "x" ["facebook", "youtube"] 5
        "s").all_platforms_data :=
  C4_never_raises_complete_report envAlwaysRaises "x" ["facebook", "youtube"] 5 "s"
    "facebook" (by decide)

end V79
